import Mathlib

/-!
Verification development for the `cargo-manifest` crate: a shallow embedding
of the manifest data model (`src/lib.rs`), of the completion engine
(`complete_from_abstract_filesystem` and `autoset`), of the publish/bool
equality, of the dependency classification, and of the legacy-fallback parser
entry point (`Manifest::from_slice_with_metadata`), together with theorems
settling the specified properties.
-/

namespace CargoManifest

/-- `Edition` enum: serde-renamed `"2015" | "2018" | "2021"`, default `E2015`. -/
inductive Edition where
  | E2015
  | E2018
  | E2021
deriving DecidableEq, Repr

/-- `Edition::default()` is `E2015` (`#[default]` on `E2015`). -/
def Edition.default : Edition := .E2015

/-- `Resolver` enum: serde-renamed `"1" | "2"`, default `V1`. -/
inductive Resolver where
  | V1
  | V2
deriving DecidableEq, Repr

/-- `MaintenanceStatus` enum with default `None`. -/
inductive MaintenanceStatus where
  | None
  | ActivelyDeveloped
  | PassivelyMaintained
  | AsIs
  | Experimental
  | LookingForMaintainer
  | Deprecated
deriving DecidableEq, Repr

/-- `Maintenance` record: a single `status` field. -/
structure Maintenance where
  status : MaintenanceStatus
deriving DecidableEq, Repr

/-- `toml::Value`: an untyped structured document value. Tables carry their
key/value pairs as an association list (a parsed TOML table has unique keys);
floats and datetimes are carried as their textual representation, which is
all the crate ever does with them. -/
inductive Value where
  | str (s : String)
  | boolean (b : Bool)
  | integer (n : Int)
  | float (repr : String)
  | datetime (repr : String)
  | array (vs : List Value)
  | table (kvs : List (String × Value))

/-- `toml::Value::get(key)`: key lookup on a table, `None` on any other shape. -/
def Value.get (v : Value) (key : String) : Option Value :=
  match v with
  | .table kvs => kvs.lookup key
  | _ => none

/-- `StringOrBool`: serde-untagged union of a string and a boolean. -/
inductive StringOrBool where
  | string (s : String)
  | bool (b : Bool)
deriving DecidableEq, Repr

/-- `Publish`: serde-untagged union of a boolean flag and a registry-name list. -/
inductive Publish where
  | Flag (b : Bool)
  | Registry (reg : List String)
deriving DecidableEq, Repr

/-- `Publish::default()` is `Flag(true)`. -/
def Publish.default : Publish := .Flag true

/-- `impl PartialEq<Publish> for bool`: `Flag(flag)` compares as `flag == *self`,
`Registry(reg)` compares as `reg.is_empty() != *self`. -/
def boolEqPublish (self : Bool) (p : Publish) : Bool :=
  match p with
  | .Flag flag => flag == self
  | .Registry reg => reg.isEmpty != self

/-- `impl PartialEq<bool> for Publish` delegates to the other direction. -/
def publishEqBool (p : Publish) (b : Bool) : Bool :=
  boolEqPublish b p

/-- `MaybeInherited<T>`: serde-untagged union of the workspace-inheritance
marker `{ workspace = true }` (the payload is the type-level `True`, carrying
no data) and a local value. -/
inductive MaybeInherited (T : Type) where
  | Inherited
  | Local (val : T)
deriving DecidableEq, Repr

/-- `Product`: one buildable unit (`[lib]` or an element of
`[[bin]]`/`[[test]]`/`[[bench]]`/`[[example]]`). -/
structure Product where
  path : Option String
  name : Option String
  test : Bool
  doctest : Bool
  bench : Bool
  doc : Bool
  plugin : Bool
  proc_macro : Bool
  harness : Bool
  edition : Option Edition
  required_features : List String
  crate_type : Option (List String)
deriving DecidableEq, Repr

/-- `impl Default for Product`: booleans `test`/`doctest`/`bench`/`doc`/`harness`
true, `plugin`/`proc_macro` false, `edition = Some(Edition::default())`, empty
`required_features`, no path/name/crate_type. -/
def Product.default : Product where
  path := none
  name := none
  test := true
  doctest := true
  bench := true
  doc := true
  plugin := false
  proc_macro := false
  harness := true
  edition := some Edition.default
  required_features := []
  crate_type := none

/-- `DependencyDetail`: the record shape of a dependency. -/
structure DependencyDetail where
  version : Option String
  registry : Option String
  registry_index : Option String
  path : Option String
  git : Option String
  branch : Option String
  tag : Option String
  rev : Option String
  features : Option (List String)
  optional : Option Bool
  workspace : Option Bool
  default_features : Option Bool
  package : Option String
deriving DecidableEq, Repr

/-- `DependencyDetail::default()`: every field absent. -/
def DependencyDetail.default : DependencyDetail where
  version := none
  registry := none
  registry_index := none
  path := none
  git := none
  branch := none
  tag := none
  rev := none
  features := none
  optional := none
  workspace := none
  default_features := none
  package := none

/-- `Dependency`: serde-untagged union of a bare version-requirement string and
a detailed record. -/
inductive Dependency where
  | Simple (version : String)
  | Detailed (d : DependencyDetail)
deriving DecidableEq, Repr

/-- `Dependency::is_crates_io`: `true` for `Simple`; for `Detailed`, `true`
exactly when none of path/registry/registry-index/git/tag/branch/rev are set. -/
def Dependency.is_crates_io : Dependency → Bool
  | .Simple _ => true
  | .Detailed d =>
      d.path.isNone && d.registry.isNone && d.registry_index.isNone
        && d.git.isNone && d.tag.isNone && d.branch.isNone && d.rev.isNone

/-- `DepsSet`: a map from dependency name to `Dependency` (a `BTreeMap`,
embedded as an association list). -/
def DepsSet : Type := List (String × Dependency)

/-- `Target`: per-platform dependency overrides. -/
structure Target where
  dependencies : DepsSet
  dev_dependencies : DepsSet
  build_dependencies : DepsSet

/-- `TargetDepsSet`: map from platform expression to `Target`. -/
def TargetDepsSet : Type := List (String × Target)

/-- `FeatureSet`: map from feature name to its dependency list. -/
def FeatureSet : Type := List (String × List String)

/-- `PatchSet`: map from registry name to a dependency set. -/
def PatchSet : Type := List (String × DepsSet)

/-- `Profile`: build-tuning knobs. -/
structure Profile where
  opt_level : Option Value
  debug : Option Value
  rpath : Option Bool
  inherits : Option String
  lto : Option Value
  debug_assertions : Option Bool
  codegen_units : Option Nat
  panic : Option String
  incremental : Option Bool
  overflow_checks : Option Bool
  package : List (String × Value)
  build_override : Option Value

/-- `Profiles`: the five conventional profiles plus the flattened
custom-profile map. -/
structure Profiles where
  release : Option Profile
  dev : Option Profile
  test : Option Profile
  bench : Option Profile
  doc : Option Profile
  custom : List (String × Profile)

/-- `Badge`: one CI/service badge record. -/
structure Badge where
  repository : String
  branch : String
  service : Option String
  id : Option String
  project_name : Option String
deriving DecidableEq, Repr

/-- `Badges`: the badge section. -/
structure Badges where
  appveyor : Option Badge
  circle_ci : Option Badge
  gitlab : Option Badge
  travis_ci : Option Badge
  codecov : Option Badge
  coveralls : Option Badge
  is_it_maintained_issue_resolution : Option Badge
  is_it_maintained_open_issues : Option Badge
  maintenance : Maintenance
deriving DecidableEq, Repr

/-- `WorkspacePackage`: the `workspace.package` table of inheritable keys. -/
structure WorkspacePackage where
  edition : Option Edition
  version : Option String
  authors : Option (List String)
  description : Option String
  homepage : Option String
  documentation : Option String
  readme : Option StringOrBool
  keywords : Option (List String)
  categories : Option (List String)
  license : Option String
  license_file : Option String
  publish : Option Publish
  exclude : Option (List String)
  «include» : Option (List String)
  repository : Option String
  rust_version : Option String
deriving DecidableEq, Repr

/-- `Workspace`: the `[workspace]` section. -/
structure Workspace where
  members : List String
  default_members : Option (List String)
  exclude : Option (List String)
  resolver : Option Resolver
  dependencies : Option DepsSet
  package : Option WorkspacePackage

/-- `Package<Metadata>`: the `[package]` section. -/
structure Package (Metadata : Type) where
  name : String
  edition : Option (MaybeInherited Edition)
  version : MaybeInherited String
  build : Option Value
  workspace : Option String
  authors : Option (MaybeInherited (List String))
  links : Option String
  description : Option (MaybeInherited String)
  homepage : Option (MaybeInherited String)
  documentation : Option (MaybeInherited String)
  readme : Option (MaybeInherited StringOrBool)
  keywords : Option (MaybeInherited (List String))
  categories : Option (MaybeInherited (List String))
  license : Option (MaybeInherited String)
  license_file : Option (MaybeInherited String)
  repository : Option (MaybeInherited String)
  metadata : Option Metadata
  rust_version : Option (MaybeInherited String)
  exclude : Option (MaybeInherited (List String))
  «include» : Option (MaybeInherited (List String))
  default_run : Option String
  autobins : Bool
  autoexamples : Bool
  autotests : Bool
  autobenches : Bool
  publish : Option (MaybeInherited Publish)
  resolver : Option Resolver

/-- `Manifest<Metadata>`: the top-level `Cargo.toml` structure. -/
structure Manifest (Metadata : Type) where
  package : Option (Package Metadata)
  cargo_features : Option (List String)
  workspace : Option Workspace
  dependencies : Option DepsSet
  dev_dependencies : Option DepsSet
  build_dependencies : Option DepsSet
  target : Option TargetDepsSet
  features : Option FeatureSet
  bin : Option (List Product)
  bench : Option (List Product)
  test : Option (List Product)
  «example» : Option (List Product)
  patch : Option PatchSet
  lib : Option Product
  profile : Option Profiles
  badges : Option Badges

/-- `std::io::ErrorKind`, restricted to the kinds the crate distinguishes:
`NotFound` is tested for explicitly; every other kind is carried opaquely. -/
inductive ErrorKind where
  | NotFound
  | PermissionDenied
  | Other (code : String)
deriving DecidableEq, Repr

/-- `std::io::Error`: a kind plus a message. -/
structure IoError where
  kind : ErrorKind
  msg : String
deriving DecidableEq, Repr

/-- `cargo_manifest::Error` (`src/error.rs`): `Parse` wraps a TOML
deserialization error, `Io` wraps an I/O error, `Utf8` an encoding error.
The wrapped payloads of `Parse`/`Utf8` are carried as their message text. -/
inductive Error where
  | Parse (msg : String)
  | Io (err : IoError)
  | Utf8 (msg : String)
deriving DecidableEq, Repr

/-- The `AbstractFilesystem` capability: `file_names_in(rel_path)` yields the
set of entry names in a directory, or an I/O error. The trait lives in the
crate's `afs` module; its shape here follows its call sites in `lib.rs` and
the spec's description of the interface (one operation: relative directory
path in, entry-name set or not-found/error out). A `HashSet<Box<str>>` of
names is embedded as a list of strings (membership is what the algorithm
consumes; iteration order of the set is unspecified in the source and is the
list order here). -/
def FS : Type := String → Except IoError (List String)

/-- Rust `str::ends_with` as a suffix test on the character sequence
(equivalent to the byte-suffix test on well-formed UTF-8); stated on
character lists so that it evaluates by kernel reduction. -/
def strEndsWith (s pat : String) : Bool :=
  List.isSuffixOf pat.data s.data

/-- Dropping the last `n` characters of a string (the effect of removing a
matched suffix of `n` characters). -/
def strDropRight (s : String) (n : Nat) : String :=
  ⟨s.data.take (s.data.length - n)⟩

/-- The character length of a string. -/
def strLength (s : String) : Nat := s.data.length

/-- Rust `name.replace('-', "_")`: the pattern is a single character and the
replacement a single-character string, so the call maps every `-` to `_`. -/
def dashToUnderscore (s : String) : String :=
  ⟨s.data.map (fun c => if c = '-' then '_' else c)⟩

/-- Rust `str::trim_end_matches(pat)`: repeatedly removes the suffix `pat`
as long as it is present. Defined with fuel `strLength s`, which bounds the
number of removals since each removal shortens the string. -/
def trimEndMatchesAux (pat : String) : Nat → String → String
  | 0, s => s
  | fuel + 1, s =>
      if strEndsWith s pat && !pat.isEmpty then
        trimEndMatchesAux pat fuel (strDropRight s (strLength pat))
      else s

/-- Rust `name.trim_end_matches(pat)`. -/
def trimEndMatches (s pat : String) : String :=
  trimEndMatchesAux pat (strLength s) s

/-- The locally-declared edition used to stamp synthesized products
(`complete_from_abstract_filesystem` lines 237-240 and `autoset` lines
290-293): the package's edition if it is `Some(MaybeInherited::Local(_))`,
`None` otherwise (absent or workspace-inherited). -/
def localEdition {M : Type} (package : Package M) : Option Edition :=
  match package.edition with
  | some (MaybeInherited.Local e) => some e
  | _ => none

/-- The body of `autoset`'s `for name in bins` loop, accumulating `out`.
For an entry ending in `.rs`, push a product named by `trim_end_matches(".rs")`
at `dir/name`; otherwise list `dir/name` and, if that listing succeeds and
contains `main.rs`, push a product named `name` at `dir/name/main.rs`;
all other entries (including subdirectory listings that fail) are skipped. -/
def autosetLoop (edition : Option Edition) (dir : String) (fs : FS) :
    List String → List Product → List Product
  | [], out => out
  | name :: rest, out =>
      let rel_path := dir ++ "/" ++ name
      if strEndsWith name ".rs" then
        autosetLoop edition dir fs rest
          (out ++ [{ Product.default with
            name := some (trimEndMatches name ".rs")
            path := some rel_path
            edition := edition }])
      else
        match fs rel_path with
        | .ok sub =>
            if sub.contains "main.rs" then
              autosetLoop edition dir fs rest
                (out ++ [{ Product.default with
                  name := some name
                  path := some (rel_path ++ "/main.rs")
                  edition := edition }])
            else autosetLoop edition dir fs rest out
        | .error _ => autosetLoop edition dir fs rest out

/-- `autoset(package, dir, fs)` (lines 288-317): scan `dir`'s listing into a
product list; a failed listing of `dir` itself (`if let Ok`) yields no
products. -/
def autoset {M : Type} (package : Package M) (dir : String) (fs : FS) :
    List Product :=
  let edition := localEdition package
  match fs dir with
  | .ok bins => autosetLoop edition dir fs bins []
  | .error _ => []

/-- The auto-scan rule for a single directory entry, for characterizing
`autoset` entry-by-entry: a `.rs` entry yields a product named by
`trim_end_matches(".rs")` at `dir/name`; any other entry yields a product
named `name` at `dir/name/main.rs` when listing `dir/name` succeeds and
contains `main.rs`, and nothing otherwise. -/
def autosetEntry (edition : Option Edition) (dir : String) (fs : FS)
    (name : String) : Option Product :=
  let rel_path := dir ++ "/" ++ name
  if strEndsWith name ".rs" then
    some { Product.default with
      name := some (trimEndMatches name ".rs")
      path := some rel_path
      edition := edition }
  else
    match fs rel_path with
    | .ok sub =>
        if sub.contains "main.rs" then
          some { Product.default with
            name := some name
            path := some (rel_path ++ "/main.rs")
            edition := edition }
        else none
    | .error _ => none

/-- The `src` listing at the top of `complete_from_abstract_filesystem`
(lines 232-235): a `NotFound` error is replaced by the empty set
(`Ok(Default::default())`); any other outcome is passed through. -/
def srcListing (fs : FS) : Except IoError (List String) :=
  match fs "src" with
  | .error err => if err.kind = ErrorKind.NotFound then .ok [] else .error err
  | result => result

/-- The `lib` block (lines 242-252): an existing `[lib]` product has its
`required_features` cleared; otherwise, if `src` contains `lib.rs`, a library
product named after the package with dashes replaced by underscores is
synthesized at `src/lib.rs` with crate-type `["rlib"]`. -/
def libStep {M : Type} (package : Package M) (src : List String)
    (m : Manifest M) : Manifest M :=
  { m with lib :=
      (match m.lib with
       | some lib => some { lib with required_features := [] }
       | none =>
           if src.contains "lib.rs" then
             some { Product.default with
               name := some (dashToUnderscore package.name)
               path := some "src/lib.rs"
               edition := localEdition package
               crate_type := some ["rlib"] }
           else none) }

/-- The `bin` block (lines 254-265): only when `autobins` holds and no `bin`
list is present, scan `src/bin` via `autoset` and, if `src` contains
`main.rs`, append a binary named after the package (verbatim) at
`src/main.rs`; the result is recorded as the (possibly empty) `bin` list. -/
def binStep {M : Type} (package : Package M) (src : List String) (fs : FS)
    (m : Manifest M) : Manifest M :=
  { m with bin :=
      (if package.autobins && m.bin.isNone then
         let bin := autoset package "src/bin" fs
         let bin :=
           if src.contains "main.rs" then
             bin ++ [{ Product.default with
               name := some package.name
               path := some "src/main.rs"
               edition := localEdition package }]
           else bin
         some bin
       else m.bin) }

/-- The `example` block (lines 266-268). -/
def exampleStep {M : Type} (package : Package M) (fs : FS) (m : Manifest M) :
    Manifest M :=
  { m with «example» :=
      (if package.autoexamples && (Manifest.example m).isNone then
         some (autoset package "examples" fs)
       else Manifest.example m) }

/-- The `test` block (lines 269-271). -/
def testStep {M : Type} (package : Package M) (fs : FS) (m : Manifest M) :
    Manifest M :=
  { m with test :=
      (if package.autotests && m.test.isNone then
         some (autoset package "tests" fs)
       else m.test) }

/-- The `bench` block (lines 272-274). -/
def benchStep {M : Type} (package : Package M) (fs : FS) (m : Manifest M) :
    Manifest M :=
  { m with bench :=
      (if package.autobenches && m.bench.isNone then
         some (autoset package "benches" fs)
       else m.bench) }

/-- The build-script block (lines 276-282): when `build` is unset and the
listing of `.` succeeds (`map_or(false, ..)` swallows any error) and contains
`build.rs`, set `build` to the literal string `"build.rs"`. -/
def buildStep {M : Type} (fs : FS) (package : Package M) : Package M :=
  { package with build :=
      (if package.build.isNone &&
           (match fs "." with
            | .ok dir => dir.contains "build.rs"
            | .error _ => false) then
         some (Value.str "build.rs")
       else package.build) }

/-- The manifest after the successful body of
`complete_from_abstract_filesystem`: the lib/bin/example/test/bench blocks
applied in source order, then the build-script block written back into
`package`. -/
def completedManifest {M : Type} (fs : FS) (package : Package M)
    (src : List String) (m : Manifest M) : Manifest M :=
  { benchStep package fs
      (testStep package fs
        (exampleStep package fs
          (binStep package src fs
            (libStep package src m)))) with
    package := some (buildStep fs package) }

/-- `Manifest::complete_from_abstract_filesystem` (lines 227-285), embedded in
state-passing style: the returned pair is the manifest after the call (the
receiver is `&mut self` in the source) and the `Result<(), Error>` value.
When `package` is absent the call is a no-op returning `Ok`. Otherwise `src`
is listed (not-found normalized to empty, any other listing error returned
via `?` as `Error::Io` — before any mutation); then the lib/bin/example/
test/bench blocks run in order, and finally the build-script block updates
the package. -/
def complete_from_abstract_filesystem {M : Type} (fs : FS) (m : Manifest M) :
    Manifest M × Except Error Unit :=
  match m.package with
  | none => (m, .ok ())
  | some package =>
      match srcListing fs with
      | .error err => (m, .error (Error.Io err))
      | .ok src => (completedManifest fs package src m, .ok ())

/-- The external TOML/serde collaborators used by
`Manifest::from_slice_with_metadata` (lines 185-198): `toml_from_slice` at the
`Manifest` type, `toml_from_slice` at the untyped `Value` type, and
`Value::try_into::<Package>`. The entry point is verified parametrically in
these three functions; the input byte buffer is a list of byte values. -/
structure TomlDe (Metadata : Type) where
  manifestDe : List Nat → Except Error (Manifest Metadata)
  valueDe : List Nat → Except Error Value
  packageOfValue : Value → Except Error (Package Metadata)

/-- `Manifest::from_slice_with_metadata` (lines 185-198): deserialize the
manifest; when both `package` and `workspace` come back absent, re-parse the
raw document as an untyped `Value` and construct the package from its
`project` entry if present, else from the whole document root. -/
def from_slice_with_metadata {M : Type} (de : TomlDe M) (content : List Nat) :
    Except Error (Manifest M) :=
  match de.manifestDe content with
  | .error e => .error e
  | .ok manifest =>
      if manifest.package.isNone && manifest.workspace.isNone then
        match de.valueDe content with
        | .error e => .error e
        | .ok val =>
            match val.get "project" with
            | some project =>
                (de.packageOfValue project).map
                  (fun p => { manifest with package := some p })
            | none =>
                (de.packageOfValue val).map
                  (fun p => { manifest with package := some p })
      else .ok manifest

/-! ### Serde-derived deserialization of `Package`

`Package` derives `Deserialize` with `rename_all = "kebab-case"` and two
explicit renames (`license-file`, `rust-version`), and does **not** opt into
`deny_unknown_fields`; under serde's derive semantics the generated visitor
binds the known field names and ignores every other key. The following
definitions embed that generated deserializer for `Package<Value>` over a
TOML table (whose keys are unique, the TOML parser having rejected
duplicates). -/

/-- Deserializing a string value. -/
def deString : Value → Except Error String
  | .str s => .ok s
  | _ => .error (.Parse "invalid type, expected a string")

/-- Deserializing a boolean value. -/
def deBool : Value → Except Error Bool
  | .boolean b => .ok b
  | _ => .error (.Parse "invalid type, expected a boolean")

/-- Deserializing a list of strings. -/
def deStringList : Value → Except Error (List String)
  | .array vs => vs.mapM deString
  | _ => .error (.Parse "invalid type, expected a sequence")

/-- Deserializing `Edition` (serde-renamed string variants). -/
def deEdition : Value → Except Error Edition
  | .str "2015" => .ok .E2015
  | .str "2018" => .ok .E2018
  | .str "2021" => .ok .E2021
  | _ => .error (.Parse "invalid edition")

/-- Deserializing `Resolver` (serde-renamed string variants). -/
def deResolver : Value → Except Error Resolver
  | .str "1" => .ok .V1
  | .str "2" => .ok .V2
  | _ => .error (.Parse "invalid resolver")

/-- Deserializing the untagged `StringOrBool`. -/
def deStringOrBool : Value → Except Error StringOrBool
  | .str s => .ok (.string s)
  | .boolean b => .ok (.bool b)
  | _ => .error (.Parse "invalid type, expected a string or a boolean")

/-- Deserializing the untagged `Publish`: the `Flag` variant first, then the
registry list. -/
def dePublish : Value → Except Error Publish
  | .boolean b => .ok (.Flag b)
  | .array vs => (vs.mapM deString).map .Registry
  | _ => .error (.Parse "invalid publish value")

/-- Deserializing the untagged `MaybeInherited<T>`: the `Inherited` variant
(a map whose `workspace` entry deserializes as the type-level `True`, i.e. a
literal `true`; a `false` there is an error for `True`, failing the variant)
is tried first, then `Local` via the payload deserializer. -/
def deMaybeInherited {T : Type} (deT : Value → Except Error T) (v : Value) :
    Except Error (MaybeInherited T) :=
  match v.get "workspace" with
  | some (.boolean true) => .ok MaybeInherited.Inherited
  | _ => (deT v).map MaybeInherited.Local

/-- The visitor state of the derived `Package` deserializer: each field
either already bound or not yet seen. -/
structure PackagePartial where
  name : Option String
  edition : Option (MaybeInherited Edition)
  version : Option (MaybeInherited String)
  build : Option Value
  workspace : Option String
  authors : Option (MaybeInherited (List String))
  links : Option String
  description : Option (MaybeInherited String)
  homepage : Option (MaybeInherited String)
  documentation : Option (MaybeInherited String)
  readme : Option (MaybeInherited StringOrBool)
  keywords : Option (MaybeInherited (List String))
  categories : Option (MaybeInherited (List String))
  license : Option (MaybeInherited String)
  license_file : Option (MaybeInherited String)
  repository : Option (MaybeInherited String)
  metadata : Option Value
  rust_version : Option (MaybeInherited String)
  exclude : Option (MaybeInherited (List String))
  «include» : Option (MaybeInherited (List String))
  default_run : Option String
  autobins : Option Bool
  autoexamples : Option Bool
  autotests : Option Bool
  autobenches : Option Bool
  publish : Option (MaybeInherited Publish)
  resolver : Option Resolver

/-- The all-unseen initial visitor state. -/
def PackagePartial.empty : PackagePartial where
  name := none
  edition := none
  version := none
  build := none
  workspace := none
  authors := none
  links := none
  description := none
  homepage := none
  documentation := none
  readme := none
  keywords := none
  categories := none
  license := none
  license_file := none
  repository := none
  metadata := none
  rust_version := none
  exclude := none
  «include» := none
  default_run := none
  autobins := none
  autoexamples := none
  autotests := none
  autobenches := none
  publish := none
  resolver := none

/-- The field names the derived `Package` deserializer binds: kebab-cased
field names, with the explicit renames `license-file` and `rust-version`. -/
def packageKnownKeys : List String :=
  ["name", "edition", "version", "build", "workspace", "authors", "links",
   "description", "homepage", "documentation", "readme", "keywords",
   "categories", "license", "license-file", "repository", "metadata",
   "rust-version", "exclude", "include", "default-run", "autobins",
   "autoexamples", "autotests", "autobenches", "publish", "resolver"]

/-- One step of the derived map visitor: bind a known key's value into the
state; a key that is not a bound field name is ignored (serde's behavior for
a struct without `deny_unknown_fields`). -/
def applyPackageKey (acc : PackagePartial) (k : String) (v : Value) :
    Except Error PackagePartial :=
  if k = "name" then (deString v).map fun x => { acc with name := some x }
  else if k = "edition" then
    (deMaybeInherited deEdition v).map fun x => { acc with edition := some x }
  else if k = "version" then
    (deMaybeInherited deString v).map fun x => { acc with version := some x }
  else if k = "build" then .ok { acc with build := some v }
  else if k = "workspace" then
    (deString v).map fun x => { acc with workspace := some x }
  else if k = "authors" then
    (deMaybeInherited deStringList v).map fun x => { acc with authors := some x }
  else if k = "links" then (deString v).map fun x => { acc with links := some x }
  else if k = "description" then
    (deMaybeInherited deString v).map fun x => { acc with description := some x }
  else if k = "homepage" then
    (deMaybeInherited deString v).map fun x => { acc with homepage := some x }
  else if k = "documentation" then
    (deMaybeInherited deString v).map fun x => { acc with documentation := some x }
  else if k = "readme" then
    (deMaybeInherited deStringOrBool v).map fun x => { acc with readme := some x }
  else if k = "keywords" then
    (deMaybeInherited deStringList v).map fun x => { acc with keywords := some x }
  else if k = "categories" then
    (deMaybeInherited deStringList v).map fun x => { acc with categories := some x }
  else if k = "license" then
    (deMaybeInherited deString v).map fun x => { acc with license := some x }
  else if k = "license-file" then
    (deMaybeInherited deString v).map fun x => { acc with license_file := some x }
  else if k = "repository" then
    (deMaybeInherited deString v).map fun x => { acc with repository := some x }
  else if k = "metadata" then .ok { acc with metadata := some v }
  else if k = "rust-version" then
    (deMaybeInherited deString v).map fun x => { acc with rust_version := some x }
  else if k = "exclude" then
    (deMaybeInherited deStringList v).map fun x => { acc with exclude := some x }
  else if k = "include" then
    (deMaybeInherited deStringList v).map fun x => { acc with «include» := some x }
  else if k = "default-run" then
    (deString v).map fun x => { acc with default_run := some x }
  else if k = "autobins" then (deBool v).map fun x => { acc with autobins := some x }
  else if k = "autoexamples" then
    (deBool v).map fun x => { acc with autoexamples := some x }
  else if k = "autotests" then (deBool v).map fun x => { acc with autotests := some x }
  else if k = "autobenches" then
    (deBool v).map fun x => { acc with autobenches := some x }
  else if k = "publish" then
    (deMaybeInherited dePublish v).map fun x => { acc with publish := some x }
  else if k = "resolver" then
    (deResolver v).map fun x => { acc with resolver := some x }
  else .ok acc

/-- Finalizing the visitor state: `name` and `version` have no default and
must have been seen; the four `auto*` booleans default to `true`
(`default = "default_true"`); every other field defaults to absent. -/
def finalizePackage (acc : PackagePartial) : Except Error (Package Value) :=
  match acc.name with
  | none => .error (.Parse "missing field name")
  | some name =>
      match acc.version with
      | none => .error (.Parse "missing field version")
      | some version =>
          .ok { name := name
                edition := acc.edition
                version := version
                build := acc.build
                workspace := acc.workspace
                authors := acc.authors
                links := acc.links
                description := acc.description
                homepage := acc.homepage
                documentation := acc.documentation
                readme := acc.readme
                keywords := acc.keywords
                categories := acc.categories
                license := acc.license
                license_file := acc.license_file
                repository := acc.repository
                metadata := acc.metadata
                rust_version := acc.rust_version
                exclude := acc.exclude
                «include» := acc.«include»
                default_run := acc.default_run
                autobins := acc.autobins.getD true
                autoexamples := acc.autoexamples.getD true
                autotests := acc.autotests.getD true
                autobenches := acc.autobenches.getD true
                publish := acc.publish
                resolver := acc.resolver }

/-- The derived deserializer for `Package<Value>` applied to a document
value: visit a table's entries in order, then finalize; a non-table value is
a type error. -/
def packageDe (v : Value) : Except Error (Package Value) :=
  match v with
  | .table kvs =>
      match kvs.foldlM (fun acc kv => applyPackageKey acc kv.1 kv.2)
          PackagePartial.empty with
      | .error e => .error e
      | .ok acc => finalizePackage acc
  | _ => .error (.Parse "invalid type, expected a table")

/-- Modelled from the spec: the auto-scan clause "synthesize a product named
by stripping the extension" read literally, for the refinement comparison in
C1 — remove the `.rs` extension (once) from the entry name. -/
def stripExtensionSpec (name : String) : String :=
  if strEndsWith name ".rs" then name.dropRight 3 else name

/-! ### Concrete fixtures -/

/-- A concrete package: name `demo-pkg`, required `version` given locally,
every optional field absent, the four `auto*` flags at their `true` default. -/
def examplePackage : Package Value where
  name := "demo-pkg"
  edition := none
  version := MaybeInherited.Local "1.0.0"
  build := none
  workspace := none
  authors := none
  links := none
  description := none
  homepage := none
  documentation := none
  readme := none
  keywords := none
  categories := none
  license := none
  license_file := none
  repository := none
  metadata := none
  rust_version := none
  exclude := none
  «include» := none
  default_run := none
  autobins := true
  autoexamples := true
  autotests := true
  autobenches := true
  publish := none
  resolver := none

/-- A manifest with every section absent. -/
def emptyManifest : Manifest Value where
  package := none
  cargo_features := none
  workspace := none
  dependencies := none
  dev_dependencies := none
  build_dependencies := none
  target := none
  features := none
  bin := none
  bench := none
  test := none
  «example» := none
  patch := none
  lib := none
  profile := none
  badges := none

/-- `emptyManifest` with `examplePackage` as its `[package]` section. -/
def packagedManifest : Manifest Value :=
  { emptyManifest with package := some examplePackage }

/-- Filesystem stub for the auto-scan scenario: `src` is empty, `src/bin`
holds `tool.rs` and the subdirectory `helper`, `src/bin/helper` holds
`main.rs`; every other directory is not found. -/
def fsScan : FS := fun dir =>
  if dir = "src" then .ok []
  else if dir = "src/bin" then .ok ["tool.rs", "helper"]
  else if dir = "src/bin/helper" then .ok ["main.rs"]
  else .error ⟨ErrorKind.NotFound, "not found"⟩

/-- Filesystem stub whose `src/bin` holds the entry `x.rs.rs`. -/
def fsTrim : FS := fun dir =>
  if dir = "src" then .ok []
  else if dir = "src/bin" then .ok ["x.rs.rs"]
  else .error ⟨ErrorKind.NotFound, "not found"⟩

/-- Filesystem stub whose `src/bin` listing fails with a permission error
while `src` lists fine. -/
def fsBinDenied : FS := fun dir =>
  if dir = "src" then .ok []
  else if dir = "src/bin" then .error ⟨ErrorKind.PermissionDenied, "denied"⟩
  else .error ⟨ErrorKind.NotFound, "not found"⟩

/-- Filesystem stub on which every listing, `src` included, fails with a
permission error. -/
def fsSrcDenied : FS := fun _ => .error ⟨ErrorKind.PermissionDenied, "denied"⟩

/-- Filesystem stub whose `src` holds `main.rs` only; everything else is not
found. -/
def fsMain : FS := fun dir =>
  if dir = "src" then .ok ["main.rs"]
  else .error ⟨ErrorKind.NotFound, "not found"⟩

/-- Filesystem stub whose `src` holds `lib.rs` only; everything else is not
found. -/
def fsLib : FS := fun dir =>
  if dir = "src" then .ok ["lib.rs"]
  else .error ⟨ErrorKind.NotFound, "not found"⟩

/-- The manifest fields a completion call never writes (everything except
`lib`/`bin`/`example`/`test`/`bench` and `package`), bundled into a tuple
for frame reasoning. -/
def Manifest.otherFields {M : Type} (m : Manifest M) :=
  (m.cargo_features, m.workspace, m.dependencies, m.dev_dependencies,
   m.build_dependencies, m.target, m.features, m.patch, m.profile, m.badges)

/-- The package fields other than `build`, bundled into a tuple for frame
reasoning. -/
def Package.fieldsExceptBuild {M : Type} (p : Package M) :=
  (p.name, p.edition, p.version, p.workspace, p.authors, p.links,
   p.description, p.homepage, p.documentation, p.readme, p.keywords,
   p.categories, p.license, p.license_file, p.repository, p.metadata,
   p.rust_version, p.exclude, Package.include p, p.default_run, p.autobins,
   p.autoexamples, p.autotests, p.autobenches, p.publish, p.resolver)

/-- Concrete TOML/serde collaborators: the typed parse yields the empty
manifest, the untyped parse yields a document with a `project` table, and
package construction yields `examplePackage`. -/
def deFixture : TomlDe Value where
  manifestDe := fun _ => .ok emptyManifest
  valueDe := fun _ =>
    .ok (Value.table [("project", Value.table [("name", Value.str "demo")])])
  packageOfValue := fun _ => .ok examplePackage

/-! ### C4: Publish-vs-bool equivalence -/

/-- C4 counterexample: a `Publish` value that is an **empty** registry list
does not compare equal to the boolean `true` — `reg.is_empty() != *self` is
`true != true`, i.e. `false` — refuting the claim's first case. -/
theorem publish_empty_registry_ne_true :
    boolEqPublish true (Publish.Registry []) = false := rfl

/-- C4 (amended): an empty registry list compares equal to the boolean
`false` (and not to `true`); a non-empty registry list compares equal to
`true` (and not to `false`); the flag `false` compares equal only to the
boolean `false`. -/
theorem publish_bool_equivalence :
    (boolEqPublish false (Publish.Registry []) = true ∧
     boolEqPublish true (Publish.Registry []) = false) ∧
    (∀ reg : List String, reg ≠ [] →
      boolEqPublish true (Publish.Registry reg) = true ∧
      boolEqPublish false (Publish.Registry reg) = false) ∧
    (boolEqPublish false (Publish.Flag false) = true ∧
     boolEqPublish true (Publish.Flag false) = false) := by
  refine ⟨⟨rfl, rfl⟩, ?_, rfl, rfl⟩
  intro reg h
  cases reg with
  | nil => exact absurd rfl h
  | cons a l => exact ⟨rfl, rfl⟩

/-- Witness for `publish_bool_equivalence` at the registry list
`["crates-io"]`. -/
theorem publish_bool_equivalence_witness :
    (["crates-io"] : List String) ≠ [] ∧
    boolEqPublish true (Publish.Registry ["crates-io"]) = true :=
  ⟨by decide, (publish_bool_equivalence.2.1 ["crates-io"] (by decide)).1⟩

/-! ### C7: dependency classification -/

/-- C7: `Dependency::is_crates_io` returns `true` for every `Simple`
dependency, and for a `Detailed` dependency it returns `true` exactly when
none of path, registry, registry-index, git, tag, branch, rev are set —
so in particular a version-only detail is crates-io and setting any of the
seven fields (e.g. `git`) makes it non-crates-io. -/
theorem is_crates_io_characterization :
    (∀ version, (Dependency.Simple version).is_crates_io = true) ∧
    (∀ d : DependencyDetail,
      (Dependency.Detailed d).is_crates_io = true ↔
        (d.path = none ∧ d.registry = none ∧ d.registry_index = none ∧
         d.git = none ∧ d.tag = none ∧ d.branch = none ∧ d.rev = none)) := by
  refine ⟨fun version => rfl, fun d => ?_⟩
  simp [Dependency.is_crates_io, Bool.and_eq_true, Option.isNone_iff_eq_none,
    and_assoc]

/-- Witness for `is_crates_io_characterization`: a detail with only a
version set is crates-io. -/
theorem is_crates_io_characterization_witness :
    (Dependency.Detailed
      { DependencyDetail.default with version := some "1.0" }).is_crates_io
      = true :=
  (is_crates_io_characterization.2 _).mpr ⟨rfl, rfl, rfl, rfl, rfl, rfl, rfl⟩

/-! ### C5: legacy fallback of `from_slice_with_metadata` -/

/-- C5: if the first-pass deserialization yields a manifest with `package`
and `workspace` both absent and the raw document re-parses to `val`, then
the parse result is that manifest with `package` set to the `Package`
parsed from `val`'s `project` entry when present, else from `val` itself;
in both cases the `Except.map` form propagates a failing `Package`
deserialization as the overall result. -/
theorem from_slice_legacy_fallback {M : Type} (de : TomlDe M)
    (content : List Nat) (m0 : Manifest M) (val : Value)
    (h1 : de.manifestDe content = .ok m0)
    (h2 : m0.package = none) (h3 : m0.workspace = none)
    (h4 : de.valueDe content = .ok val) :
    (∀ project, val.get "project" = some project →
      from_slice_with_metadata de content =
        (de.packageOfValue project).map
          (fun p => { m0 with package := some p })) ∧
    (val.get "project" = none →
      from_slice_with_metadata de content =
        (de.packageOfValue val).map
          (fun p => { m0 with package := some p })) := by
  constructor
  · intro project hp
    simp [from_slice_with_metadata, h1, h2, h3, h4, hp]
  · intro hp
    simp [from_slice_with_metadata, h1, h2, h3, h4, hp]

/-- Witness for `from_slice_legacy_fallback` on `deFixture`: the document
has a `project` table, so the package comes from it. -/
theorem from_slice_legacy_fallback_witness :
    from_slice_with_metadata deFixture [] =
      .ok { emptyManifest with package := some examplePackage } := by
  have h := (from_slice_legacy_fallback deFixture [] emptyManifest
      (Value.table [("project", Value.table [("name", Value.str "demo")])])
      rfl rfl rfl rfl).1 (Value.table [("name", Value.str "demo")]) rfl
  simpa [Except.map, deFixture] using h

/-! ### C8: unknown keys -/

/-- `applyPackageKey` ignores a key that is not a bound field name. -/
theorem applyPackageKey_unknown (acc : PackagePartial) (k : String)
    (v : Value) (hk : k ∉ packageKnownKeys) :
    applyPackageKey acc k v = .ok acc := by
  simp only [packageKnownKeys, List.mem_cons, List.not_mem_nil, or_false,
    not_or] at hk
  obtain ⟨e1, e2, e3, e4, e5, e6, e7, e8, e9, e10, e11, e12, e13, e14, e15,
    e16, e17, e18, e19, e20, e21, e22, e23, e24, e25, e26, e27⟩ := hk
  simp [applyPackageKey, e1, e2, e3, e4, e5, e6, e7, e8, e9, e10, e11, e12,
    e13, e14, e15, e16, e17, e18, e19, e20, e21, e22, e23, e24, e25, e26, e27]

/-- C8 counterexample: the package table
`{name = "demo", version = "1.0.0", frobnicate = "zap"}` — carrying the key
`frobnicate`, which no field of the data model binds — deserializes
successfully to the same package as without that key, instead of being
rejected with an error. -/
theorem unknown_key_not_rejected :
    packageDe (Value.table
        [("name", Value.str "demo"), ("version", Value.str "1.0.0"),
         ("frobnicate", Value.str "zap")]) =
      packageDe (Value.table
        [("name", Value.str "demo"), ("version", Value.str "1.0.0")]) ∧
    (packageDe (Value.table
        [("name", Value.str "demo"), ("version", Value.str "1.0.0"),
         ("frobnicate", Value.str "zap")])).isOk = true :=
  ⟨rfl, rfl⟩

/-- C8 (amended): a key not bound by the data model in a non-open-ended
section is silently **ignored** (serde's default for a struct without
`deny_unknown_fields`), not rejected: appending such a key to a package
table leaves the deserialization result unchanged. -/
theorem unknown_key_ignored (kvs : List (String × Value)) (k : String)
    (v : Value) (hk : k ∉ packageKnownKeys) :
    packageDe (Value.table (kvs ++ [(k, v)])) = packageDe (Value.table kvs) := by
  have hfold :
      List.foldlM (fun acc kv => applyPackageKey acc kv.1 kv.2)
          PackagePartial.empty (kvs ++ [(k, v)]) =
        List.foldlM (fun acc kv => applyPackageKey acc kv.1 kv.2)
          PackagePartial.empty kvs := by
    rw [List.foldlM_append]
    cases h : List.foldlM (fun acc kv => applyPackageKey acc kv.1 kv.2)
        PackagePartial.empty kvs with
    | error e => rfl
    | ok acc =>
        simp only [List.foldlM, bind, Except.bind,
          applyPackageKey_unknown acc k v hk]
        rfl
  simp only [packageDe, hfold]

/-- Witness for `unknown_key_ignored` at the key `frobnicate`. -/
theorem unknown_key_ignored_witness :
    "frobnicate" ∉ packageKnownKeys ∧
    packageDe (Value.table
        ([("name", Value.str "demo"), ("version", Value.str "1.0.0")] ++
          [("frobnicate", Value.str "zap")])) =
      packageDe (Value.table
        [("name", Value.str "demo"), ("version", Value.str "1.0.0")]) :=
  ⟨by decide,
   unknown_key_ignored _ "frobnicate" (Value.str "zap") (by decide)⟩

/-! ### Completion engine: auxiliary lemmas -/

/-- The `autoset` loop is the `filterMap` of the per-entry rule, prefixed by
the accumulator. -/
theorem autosetLoop_eq_filterMap (edition : Option Edition) (dir : String)
    (fs : FS) (names : List String) (out : List Product) :
    autosetLoop edition dir fs names out =
      out ++ names.filterMap (autosetEntry edition dir fs) := by
  induction names generalizing out with
  | nil => simp [autosetLoop]
  | cons name rest ih =>
      simp only [autosetLoop, autosetEntry, List.filterMap_cons]
      cases hrs : strEndsWith name ".rs" with
      | true => simp [hrs, ih]
      | false =>
          cases hsub : fs (dir ++ "/" ++ name) with
          | ok sub =>
              cases hm : sub.contains "main.rs" with
              | true =>
                  have hm2 : "main.rs" ∈ sub := by simpa using hm
                  simp [hrs, hsub, hm2, ih]
              | false =>
                  have hm2 : ¬ "main.rs" ∈ sub := by simpa using hm
                  simp [hrs, hsub, hm2, ih]
          | error e => simp [hrs, hsub, ih]

/-- `autoset` on a successfully listed directory is the `filterMap` of the
per-entry rule over the listing. -/
theorem autoset_eq_filterMap {M : Type} (p : Package M) (dir : String)
    (fs : FS) (entries : List String) (h : fs dir = .ok entries) :
    autoset p dir fs =
      entries.filterMap (autosetEntry (localEdition p) dir fs) := by
  simp only [autoset, h]
  simpa using autosetLoop_eq_filterMap (localEdition p) dir fs entries []

/-- A product the per-entry rule yields carries the given edition. -/
theorem autosetEntry_edition (edition : Option Edition) (dir : String)
    (fs : FS) (a : String) (prod : Product)
    (h : autosetEntry edition dir fs a = some prod) :
    prod.edition = edition := by
  unfold autosetEntry at h
  by_cases hrs : strEndsWith a ".rs" = true
  · rw [if_pos hrs] at h
    cases h
    rfl
  · rw [if_neg hrs] at h
    cases hdir : fs (dir ++ "/" ++ a) with
    | ok sub =>
        simp only [hdir] at h
        by_cases hm : sub.contains "main.rs" = true
        · rw [if_pos hm] at h
          cases h
          rfl
        · rw [if_neg hm] at h
          cases h
    | error e => simp only [hdir] at h; cases h

/-- Every product `autoset` synthesizes carries the locally-declared
edition. -/
theorem autoset_edition {M : Type} (p : Package M) (dir : String) (fs : FS) :
    ∀ prod ∈ autoset p dir fs, Product.edition prod = localEdition p := by
  intro prod hmem
  cases hfs : fs dir with
  | error e => simp [autoset, hfs] at hmem
  | ok entries =>
      rw [autoset_eq_filterMap p dir fs entries hfs] at hmem
      simp only [List.mem_filterMap] at hmem
      obtain ⟨a, -, hsome⟩ := hmem
      exact autosetEntry_edition (localEdition p) dir fs a prod hsome

/-- Reduction of a completion call on a manifest with a package section. -/
theorem complete_eq_of_package_some {M : Type} (fs : FS) (n : Manifest M)
    (q : Package M) (hq : n.package = some q) :
    complete_from_abstract_filesystem fs n =
      (match srcListing fs with
       | .error err => (n, .error (Error.Io err))
       | .ok src => (completedManifest fs q src n, .ok ())) := by
  simp [complete_from_abstract_filesystem, hq]

/-! ### C1: the auto-scan rule -/

/-- C1 counterexample: on the `src/bin` entry `x.rs.rs` the code synthesizes
a product named `x` — `trim_end_matches(".rs")` removes **every** trailing
`.rs` — whereas the claim's rule "named by stripping the extension" yields
`x.rs`, so the claim fails at this input. -/
theorem autoscan_trim_counterexample :
    ((complete_from_abstract_filesystem fsTrim packagedManifest).1.bin =
      some [{ Product.default with
                name := some "x", path := some "src/bin/x.rs.rs", edition := none }]) ∧
    stripExtensionSpec "x.rs.rs" = "x.rs" ∧
    (some "x" : Option String) ≠ some (stripExtensionSpec "x.rs.rs") :=
  ⟨rfl, rfl, by decide⟩

/-- C1 (amended): with `autobins` true and no explicit bin list, completion
on the scenario filesystem (`src/bin` holding `tool.rs` and `helper/` with
`main.rs`, `src` without `main.rs`) sets the bin list to exactly the product
`tool` at `src/bin/tool.rs` followed by `helper` at `src/bin/helper/main.rs`;
in general the auto-scan of a directory maps its listing through the
per-entry rule `autosetEntry`: an entry ending in `.rs` yields a product
named by removing all trailing `.rs` suffixes (Rust `trim_end_matches`) at
`D/name`, any other entry yields a product named after it at `D/name/main.rs`
exactly when listing `D/name` succeeds and contains `main.rs`, and every
other entry is silently skipped. -/
theorem autoscan_rule :
    ((complete_from_abstract_filesystem fsScan packagedManifest).1.bin =
      some [{ Product.default with
                name := some "tool", path := some "src/bin/tool.rs", edition := none },
            { Product.default with
                name := some "helper", path := some "src/bin/helper/main.rs", edition := none }]) ∧
    (∀ (M : Type) (p : Package M) (dir : String) (fs : FS)
        (entries : List String), fs dir = .ok entries →
      autoset p dir fs =
        entries.filterMap (autosetEntry (localEdition p) dir fs)) := by
  refine ⟨rfl, ?_⟩
  intro M p dir fs entries h
  exact autoset_eq_filterMap p dir fs entries h

/-- Witness for `autoscan_rule` at the scenario directory listing. -/
theorem autoscan_rule_witness :
    fsScan "src/bin" = .ok ["tool.rs", "helper"] ∧
    autoset examplePackage "src/bin" fsScan =
      ["tool.rs", "helper"].filterMap
        (autosetEntry (localEdition examplePackage) "src/bin" fsScan) :=
  ⟨rfl, autoscan_rule.2 Value examplePackage "src/bin" fsScan
    ["tool.rs", "helper"] rfl⟩

/-! ### C2: failure semantics -/

/-- C2 counterexample: on `fsBinDenied` the `src/bin` listing fails with
`PermissionDenied` — a filesystem error other than not-found, on a
conventional directory of a completion over a package with `autobins` true
and no bin list — yet the completion call returns `Ok` instead of that
error. -/
theorem listing_error_swallowed :
    fsBinDenied "src/bin" =
      .error ⟨ErrorKind.PermissionDenied, "denied"⟩ ∧
    packagedManifest.package.isSome = true ∧
    examplePackage.autobins = true ∧ packagedManifest.bin = none ∧
    (complete_from_abstract_filesystem fsBinDenied packagedManifest).2 =
      .ok () :=
  ⟨rfl, rfl, rfl, rfl, rfl⟩

/-- C2 (amended): a completion call returns an error exactly when a package
is present and the `src` listing itself fails with a non-not-found error,
surfaced as `Error::Io`; not-found on `src` is normalized to an empty
listing, errors of any kind on the other conventional listings (`src/bin`,
`examples`, `tests`, `benches`, subdirectories, and the package root) are
swallowed, and since the `src` listing precedes every mutation the manifest
is returned unchanged whenever an error is returned. -/
theorem complete_error_characterization {M : Type} (fs : FS) (m : Manifest M)
    (er : Error) :
    ((complete_from_abstract_filesystem fs m).2 = .error er ↔
      (∃ p err, m.package = some p ∧ fs "src" = .error err ∧
        err.kind ≠ ErrorKind.NotFound ∧ er = Error.Io err)) ∧
    ((complete_from_abstract_filesystem fs m).2 = .error er →
      (complete_from_abstract_filesystem fs m).1 = m) := by
  cases hp : m.package with
  | none => simp [complete_from_abstract_filesystem, hp]
  | some p =>
      cases hfs : fs "src" with
      | ok l =>
          constructor
          · simp [complete_from_abstract_filesystem, hp, srcListing, hfs]
          · simp [complete_from_abstract_filesystem, hp, srcListing, hfs]
      | error err =>
          by_cases hk : err.kind = ErrorKind.NotFound
          · constructor
            · simp [complete_from_abstract_filesystem, hp, srcListing, hfs, hk]
            · simp [complete_from_abstract_filesystem, hp, srcListing, hfs, hk]
          · constructor
            · simp [complete_from_abstract_filesystem, hp, srcListing, hfs, hk]
              tauto
            · simp [complete_from_abstract_filesystem, hp, srcListing, hfs, hk]

/-- Witness for `complete_error_characterization`: a permission error on the
`src` listing is surfaced. -/
theorem complete_error_characterization_witness :
    (complete_from_abstract_filesystem fsSrcDenied packagedManifest).2 =
      .error (Error.Io ⟨ErrorKind.PermissionDenied, "denied"⟩) :=
  (complete_error_characterization fsSrcDenied packagedManifest
      (Error.Io ⟨ErrorKind.PermissionDenied, "denied"⟩)).1.mpr
    ⟨examplePackage, ⟨ErrorKind.PermissionDenied, "denied"⟩, rfl, rfl,
     by decide, rfl⟩

/-! ### C9: the `src/main.rs` binary -/

/-- C9: when `autobins` holds, no bin list exists and `src` contains
`main.rs`, the completed bin list is the `src/bin` auto-scan followed — in
last position — by a binary named by the package name taken verbatim (no
dash replacement, unlike the synthesized library) at path `src/main.rs`. -/
theorem main_bin_appended_last {M : Type} (fs : FS) (m : Manifest M)
    (p : Package M) (src : List String)
    (hp : m.package = some p) (hsrc : srcListing fs = .ok src)
    (hauto : p.autobins = true) (hbin : m.bin = none)
    (hmain : src.contains "main.rs" = true) :
    (complete_from_abstract_filesystem fs m).1.bin =
      some (autoset p "src/bin" fs ++
        [{ Product.default with
             name := some p.name, path := some "src/main.rs", edition := localEdition p }]) := by
  have hmain2 : "main.rs" ∈ src := by simpa using hmain
  rw [complete_eq_of_package_some fs m p hp, hsrc]
  simp [completedManifest, benchStep, testStep, exampleStep, binStep,
    libStep, hauto, hbin, hmain2]

/-- Witness for `main_bin_appended_last` on `fsMain`. -/
theorem main_bin_appended_last_witness :
    (complete_from_abstract_filesystem fsMain packagedManifest).1.bin =
      some (autoset examplePackage "src/bin" fsMain ++
        [{ Product.default with
             name := some "demo-pkg", path := some "src/main.rs", edition := none }]) :=
  main_bin_appended_last fsMain packagedManifest examplePackage ["main.rs"]
    rfl rfl rfl rfl (by decide)

/-! ### C6: editions of synthesized products -/

/-- C6: every product the completion engine synthesizes — the library, the
binaries, the examples, tests and benchmarks of a category whose list was
absent before the call — has its edition equal to the package's edition when
that edition is locally declared, and `none` when it is absent or
workspace-inherited (that is `localEdition`); `Product.edition` has type
`Option Edition`, so a synthesized product cannot carry the inherited
marker. -/
theorem synthesized_edition {M : Type} (fs : FS) (m : Manifest M)
    (p : Package M) (hp : m.package = some p) :
    (m.lib = none →
      ∀ l, ((complete_from_abstract_filesystem fs m).1).lib = some l →
        l.edition = localEdition p) ∧
    (m.bin = none →
      ∀ prod ∈ (((complete_from_abstract_filesystem fs m).1).bin).getD [],
        Product.edition prod = localEdition p) ∧
    (Manifest.example m = none →
      ∀ prod ∈
        (Manifest.example ((complete_from_abstract_filesystem fs m).1)).getD [],
        Product.edition prod = localEdition p) ∧
    (m.test = none →
      ∀ prod ∈ (((complete_from_abstract_filesystem fs m).1).test).getD [],
        Product.edition prod = localEdition p) ∧
    (m.bench = none →
      ∀ prod ∈ (((complete_from_abstract_filesystem fs m).1).bench).getD [],
        Product.edition prod = localEdition p) := by
  rw [complete_eq_of_package_some fs m p hp]
  cases hs : srcListing fs with
  | error err =>
      refine ⟨?_, ?_, ?_, ?_, ?_⟩
      · intro h0 l hl
        rw [show ((m, Except.error (Error.Io err)).1.lib) = m.lib from rfl,
          h0] at hl
        cases hl
      · intro h0 prod hmem
        rw [show ((m, Except.error (Error.Io err)).1.bin) = m.bin from rfl,
          h0] at hmem
        cases hmem
      · intro h0 prod hmem
        rw [show (Manifest.example (m, Except.error (Error.Io err)).1) =
          Manifest.example m from rfl, h0] at hmem
        cases hmem
      · intro h0 prod hmem
        rw [show ((m, Except.error (Error.Io err)).1.test) = m.test from rfl,
          h0] at hmem
        cases hmem
      · intro h0 prod hmem
        rw [show ((m, Except.error (Error.Io err)).1.bench) = m.bench from rfl,
          h0] at hmem
        cases hmem
  | ok src =>
      refine ⟨?_, ?_, ?_, ?_, ?_⟩
      · intro h0 l hl
        simp only [completedManifest, benchStep, testStep, exampleStep,
          binStep, libStep, h0] at hl
        by_cases hc : src.contains "lib.rs" = true
        · rw [if_pos hc] at hl
          cases hl
          rfl
        · rw [if_neg hc] at hl
          cases hl
      · intro h0 prod hmem
        simp only [completedManifest, benchStep, testStep, exampleStep,
          binStep, libStep, h0, Option.isNone_none, Bool.and_true] at hmem
        by_cases hauto : p.autobins = true
        · rw [if_pos hauto] at hmem
          simp only [Option.getD_some] at hmem
          by_cases hc : src.contains "main.rs" = true
          · rw [if_pos hc] at hmem
            rcases List.mem_append.1 hmem with hin | hin
            · exact autoset_edition p "src/bin" fs prod hin
            · rcases List.mem_singleton.1 hin with rfl
              rfl
          · rw [if_neg hc] at hmem
            exact autoset_edition p "src/bin" fs prod hmem
        · rw [if_neg hauto] at hmem
          cases hmem
      · intro h0 prod hmem
        simp only [completedManifest, benchStep, testStep, exampleStep,
          binStep, libStep, h0, Option.isNone_none, Bool.and_true] at hmem
        by_cases hauto : p.autoexamples = true
        · rw [if_pos hauto] at hmem
          simp only [Option.getD_some] at hmem
          exact autoset_edition p "examples" fs prod hmem
        · rw [if_neg hauto] at hmem
          cases hmem
      · intro h0 prod hmem
        simp only [completedManifest, benchStep, testStep, exampleStep,
          binStep, libStep, h0, Option.isNone_none, Bool.and_true] at hmem
        by_cases hauto : p.autotests = true
        · rw [if_pos hauto] at hmem
          simp only [Option.getD_some] at hmem
          exact autoset_edition p "tests" fs prod hmem
        · rw [if_neg hauto] at hmem
          cases hmem
      · intro h0 prod hmem
        simp only [completedManifest, benchStep, testStep, exampleStep,
          binStep, libStep, h0, Option.isNone_none, Bool.and_true] at hmem
        by_cases hauto : p.autobenches = true
        · rw [if_pos hauto] at hmem
          simp only [Option.getD_some] at hmem
          exact autoset_edition p "benches" fs prod hmem
        · rw [if_neg hauto] at hmem
          cases hmem

/-- Witness for `synthesized_edition`: the library synthesized on `fsLib`
carries the edition `localEdition examplePackage` (here `none`, since
`examplePackage` declares no edition). -/
theorem synthesized_edition_witness :
    ({ Product.default with
         name := some "demo_pkg", path := some "src/lib.rs",
         edition := none, crate_type := some ["rlib"] } : Product).edition =
      localEdition examplePackage :=
  (synthesized_edition fsLib packagedManifest examplePackage rfl).1 rfl
    { Product.default with
        name := some "demo_pkg", path := some "src/lib.rs",
        edition := none, crate_type := some ["rlib"] } rfl

/-! ### C10: frame of a completion call -/

/-- C10: a completion call writes at most `lib`, `bin`, `example`, `test`,
`bench` and the package's `build` field — the bundled remaining manifest
fields and the package fields other than `build` are unchanged, on the error
path included — and when `package` is absent the call returns the manifest
unchanged with `Ok`, independently of the filesystem (so no listing can
influence the result). -/
theorem complete_frame {M : Type} (fs : FS) (m : Manifest M) :
    (Manifest.otherFields ((complete_from_abstract_filesystem fs m).1) =
      Manifest.otherFields m) ∧
    (Option.map Package.fieldsExceptBuild
        (((complete_from_abstract_filesystem fs m).1).package) =
      Option.map Package.fieldsExceptBuild m.package) ∧
    (m.package = none →
      ∀ g : FS, complete_from_abstract_filesystem g m = (m, .ok ())) := by
  refine ⟨?_, ?_, fun h g => by simp [complete_from_abstract_filesystem, h]⟩
  · cases hp : m.package with
    | none => simp [complete_from_abstract_filesystem, hp]
    | some p =>
        rw [complete_eq_of_package_some fs m p hp]
        cases hs : srcListing fs with
        | error err => simp
        | ok src =>
            simp [Manifest.otherFields, completedManifest, benchStep,
              testStep, exampleStep, binStep, libStep]
  · cases hp : m.package with
    | none => simp [complete_from_abstract_filesystem, hp]
    | some p =>
        rw [complete_eq_of_package_some fs m p hp]
        cases hs : srcListing fs with
        | error err => simp [hp]
        | ok src =>
            simp [Package.fieldsExceptBuild, completedManifest, benchStep,
              testStep, exampleStep, binStep, libStep, buildStep]

/-- Witness for `complete_frame`: on a packageless manifest the call is a
no-op. -/
theorem complete_frame_witness :
    complete_from_abstract_filesystem fsScan emptyManifest =
      (emptyManifest, .ok ()) :=
  (complete_frame fsScan emptyManifest).2.2 rfl fsScan

/-! ### C3: idempotence -/

/-- Clearing an already-empty `required_features` is the identity. -/
theorem Product.clear_rf_self (l : Product) (h : l.required_features = []) :
    ({ l with required_features := [] } : Product) = l := by
  rw [← h]

/-- A manifest whose `lib` already satisfies the lib-block invariants —
absent only when `src` has no `lib.rs`, with empty `required_features` when
present — is a fixed point of the lib block. -/
theorem libStep_stable {M : Type} (q : Package M) (src : List String)
    (n : Manifest M)
    (hnone : n.lib = none → src.contains "lib.rs" = false)
    (hsome : ∀ l, n.lib = some l → l.required_features = []) :
    libStep q src n = n := by
  unfold libStep
  cases hn : n.lib with
  | none =>
      simp only [hn, hnone hn, Bool.false_eq_true, if_false]
      rw [← hn]
  | some l =>
      simp only [hn]
      rw [Product.clear_rf_self l (hsome l hn), ← hn]

/-- When `autobins` implies the bin list is present, the bin block is the
identity. -/
theorem binStep_stable {M : Type} (q : Package M) (src : List String)
    (fs : FS) (n : Manifest M)
    (h : q.autobins = true → n.bin.isNone = false) :
    binStep q src fs n = n := by
  have hcond : (q.autobins && n.bin.isNone) = false := by
    cases hq : q.autobins with
    | false => rfl
    | true => rw [h hq]; rfl
  unfold binStep
  rw [hcond]
  rfl

/-- When `autoexamples` implies the example list is present, the example
block is the identity. -/
theorem exampleStep_stable {M : Type} (q : Package M) (fs : FS)
    (n : Manifest M)
    (h : q.autoexamples = true → (Manifest.example n).isNone = false) :
    exampleStep q fs n = n := by
  have hcond : (q.autoexamples && (Manifest.example n).isNone) = false := by
    cases hq : q.autoexamples with
    | false => rfl
    | true => rw [h hq]; rfl
  unfold exampleStep
  rw [hcond]
  rfl

/-- When `autotests` implies the test list is present, the test block is the
identity. -/
theorem testStep_stable {M : Type} (q : Package M) (fs : FS) (n : Manifest M)
    (h : q.autotests = true → n.test.isNone = false) :
    testStep q fs n = n := by
  have hcond : (q.autotests && n.test.isNone) = false := by
    cases hq : q.autotests with
    | false => rfl
    | true => rw [h hq]; rfl
  unfold testStep
  rw [hcond]
  rfl

/-- When `autobenches` implies the bench list is present, the bench block is
the identity. -/
theorem benchStep_stable {M : Type} (q : Package M) (fs : FS)
    (n : Manifest M)
    (h : q.autobenches = true → n.bench.isNone = false) :
    benchStep q fs n = n := by
  have hcond : (q.autobenches && n.bench.isNone) = false := by
    cases hq : q.autobenches with
    | false => rfl
    | true => rw [h hq]; rfl
  unfold benchStep
  rw [hcond]
  rfl

/-- The build-script block is idempotent. -/
theorem buildStep_idem {M : Type} (fs : FS) (q : Package M) :
    buildStep fs (buildStep fs q) = buildStep fs q := by
  cases hb : q.build with
  | some v =>
      have h1 : buildStep fs q = q := by
        unfold buildStep
        simp only [hb, Option.isNone_some, Bool.false_and,
          Bool.false_eq_true, if_false]
        rw [← hb]
      rw [h1]
      exact h1
  | none =>
      cases hc : (match fs "." with
                  | .ok dir => dir.contains "build.rs"
                  | .error _ => false) with
      | false =>
          have h1 : buildStep fs q = q := by
            unfold buildStep
            simp only [hb, Option.isNone_none, Bool.true_and, hc,
              Bool.false_eq_true, if_false]
            rw [← hb]
          rw [h1]
          exact h1
      | true =>
          have h1 : buildStep fs q =
              { q with build := some (Value.str "build.rs") } := by
            unfold buildStep
            simp only [hb, Option.isNone_none, Bool.true_and, hc, if_true]
          rw [h1]
          rfl

/-- After the lib block, an absent `lib` certifies that `src` has no
`lib.rs`. -/
theorem libStep_lib_none {M : Type} (p : Package M) (src : List String)
    (m : Manifest M) (h : (libStep p src m).lib = none) :
    src.contains "lib.rs" = false := by
  simp only [libStep] at h
  cases hm : m.lib with
  | some l => simp only [hm] at h; cases h
  | none =>
      simp only [hm] at h
      cases hc : src.contains "lib.rs" with
      | false => rfl
      | true =>
          simp [hc] at h
          exact absurd (by simpa using hc) h

/-- After the lib block, a present `lib` has empty `required_features`. -/
theorem libStep_lib_rf {M : Type} (p : Package M) (src : List String)
    (m : Manifest M) (l : Product) (h : (libStep p src m).lib = some l) :
    l.required_features = [] := by
  simp only [libStep] at h
  cases hm : m.lib with
  | some l0 =>
      simp only [hm] at h
      cases h
      rfl
  | none =>
      simp only [hm] at h
      by_cases hc : src.contains "lib.rs" = true
      · rw [if_pos hc] at h
        cases h
        rfl
      · rw [if_neg hc] at h
        cases h

/-- After the bin block, `autobins` implies a present bin list. -/
theorem binStep_bin {M : Type} (p : Package M) (src : List String) (fs : FS)
    (n : Manifest M) (hq : p.autobins = true) :
    ((binStep p src fs n).bin).isNone = false := by
  simp only [binStep, hq]
  cases hb : n.bin with
  | none => simp
  | some l => simp [hb]

/-- After the example block, `autoexamples` implies a present example
list. -/
theorem exampleStep_example {M : Type} (p : Package M) (fs : FS)
    (n : Manifest M) (hq : p.autoexamples = true) :
    ((Manifest.example (exampleStep p fs n))).isNone = false := by
  simp only [exampleStep, hq]
  cases hb : Manifest.example n with
  | none => simp
  | some l => simp [hb]

/-- After the test block, `autotests` implies a present test list. -/
theorem testStep_test {M : Type} (p : Package M) (fs : FS) (n : Manifest M)
    (hq : p.autotests = true) :
    ((testStep p fs n).test).isNone = false := by
  simp only [testStep, hq]
  cases hb : n.test with
  | none => simp
  | some l => simp [hb]

/-- After the bench block, `autobenches` implies a present bench list. -/
theorem benchStep_bench {M : Type} (p : Package M) (fs : FS) (n : Manifest M)
    (hq : p.autobenches = true) :
    ((benchStep p fs n).bench).isNone = false := by
  simp only [benchStep, hq]
  cases hb : n.bench with
  | none => simp
  | some l => simp [hb]

/-- A manifest that is a fixed point of every block, whose package is
already the build-stepped one, is a fixed point of the completed-manifest
construction. -/
theorem second_pass_identity {M : Type} (fs : FS) (q : Package M)
    (src : List String) (n : Manifest M)
    (e1 : libStep q src n = n) (e2 : binStep q src fs n = n)
    (e3 : exampleStep q fs n = n) (e4 : testStep q fs n = n)
    (e5 : benchStep q fs n = n) (e6 : buildStep fs q = q)
    (e7 : n.package = some q) :
    completedManifest fs q src n = n := by
  unfold completedManifest
  rw [e1, e2, e3, e4, e5, e6, ← e7]

/-- C3: running the completion engine twice on the same manifest and
filesystem view yields the same final manifest as running it once — the
second pass finds `lib`/`bin`/`example`/`test`/`bench` and `build` already
populated (or legitimately absent) and makes no further change; in
particular the clearing of a present lib's `required_features` is the
identity on the second pass because the first already cleared it. -/
theorem complete_idempotent {M : Type} (fs : FS) (m m1 : Manifest M)
    (h : complete_from_abstract_filesystem fs m = (m1, .ok ())) :
    complete_from_abstract_filesystem fs m1 = (m1, .ok ()) := by
  cases hp : m.package with
  | none =>
      have he : complete_from_abstract_filesystem fs m = (m, .ok ()) := by
        simp [complete_from_abstract_filesystem, hp]
      rw [he] at h
      injection h with h1 h2
      subst h1
      exact he
  | some p =>
      rw [complete_eq_of_package_some fs m p hp] at h
      cases hs : srcListing fs with
      | error err =>
          simp only [hs] at h
          injection h with h1 h2
          cases h2
      | ok src =>
          simp only [hs] at h
          injection h with h1 h2
          subst h1
          have e1 : libStep (buildStep fs p) src
              (completedManifest fs p src m) = completedManifest fs p src m :=
            libStep_stable (buildStep fs p) src (completedManifest fs p src m)
              (fun hn => libStep_lib_none p src m hn)
              (fun l hl => libStep_lib_rf p src m l hl)
          have e2 : binStep (buildStep fs p) src fs
              (completedManifest fs p src m) = completedManifest fs p src m :=
            binStep_stable (buildStep fs p) src fs
              (completedManifest fs p src m)
              (fun hq => binStep_bin p src fs (libStep p src m) hq)
          have e3 : exampleStep (buildStep fs p) fs
              (completedManifest fs p src m) = completedManifest fs p src m :=
            exampleStep_stable (buildStep fs p) fs
              (completedManifest fs p src m)
              (fun hq => exampleStep_example p fs
                (binStep p src fs (libStep p src m)) hq)
          have e4 : testStep (buildStep fs p) fs
              (completedManifest fs p src m) = completedManifest fs p src m :=
            testStep_stable (buildStep fs p) fs
              (completedManifest fs p src m)
              (fun hq => testStep_test p fs
                (exampleStep p fs (binStep p src fs (libStep p src m))) hq)
          have e5 : benchStep (buildStep fs p) fs
              (completedManifest fs p src m) = completedManifest fs p src m :=
            benchStep_stable (buildStep fs p) fs
              (completedManifest fs p src m)
              (fun hq => benchStep_bench p fs
                (testStep p fs
                  (exampleStep p fs (binStep p src fs (libStep p src m)))) hq)
          have hfinal := second_pass_identity fs (buildStep fs p) src
            (completedManifest fs p src m) e1 e2 e3 e4 e5
            (buildStep_idem fs p) rfl
          rw [complete_eq_of_package_some fs (completedManifest fs p src m)
            (buildStep fs p) rfl]
          simp only [hs]
          rw [hfinal]

/-- Witness for `complete_idempotent`: completing the completed scenario
manifest changes nothing. -/
theorem complete_idempotent_witness :
    complete_from_abstract_filesystem fsScan
        ((complete_from_abstract_filesystem fsScan packagedManifest).1) =
      ((complete_from_abstract_filesystem fsScan packagedManifest).1,
        .ok ()) :=
  complete_idempotent fsScan packagedManifest
    ((complete_from_abstract_filesystem fsScan packagedManifest).1) rfl

end CargoManifest
